import Mathlib

/-!
Shallow embedding of `src/rust/azure_iot_operations_services/src/state_store/client.rs`
(State Store client: command facade, key-observation registry interactions, and the
key-notification routing loop), together with theorems checking the specification's
claims about it.

Conventions:
* `Vec<u8>` becomes `List Nat`; `Duration` becomes a `Nat` number of seconds;
  `HybridLogicalClock` versions become `Nat`.
* Fallible Rust paths become `Except`; the transport (`rpc_command::Invoker::invoke`)
  is an external collaborator, so each facade operation takes the transport's outcome
  for the one invoke it may perform as an explicit parameter, and reports how many
  transport invocations it performed.
* The routing loop (`receive_key_notification_loop`) is embedded as a step function on
  an explicit loop state, driven by events corresponding to the arms of its
  `tokio::select!`; the `.unwrap()` panic on hex decoding is a distinct outcome.
-/

set_option autoImplicit false

deriving instance DecidableEq for Except

namespace StateStore

/-- Raw byte strings (`Vec<u8>` in the source). -/
abbrev Bytes := List Nat

/-- Registry of observed keys: the set of encoded key names with a live receiver
(the key set of the `Dispatcher`'s internal map). -/
abbrev Registry := List String

/-- Variants of `state_store::resp3::Response` that `client.rs` matches on; the
wildcard arms of the source cover every remaining shape. -/
inductive Resp where
  | ok
  | notApplied
  | notFound
  | value (v : Bytes)
  | valuesDeleted (n : Int)
  | respError (m : String)
deriving DecidableEq, Repr

/-- Variants of `state_store::resp3::Request` built by the facade operations. -/
inductive Req where
  | setReq (key : Bytes) (value : Bytes)
  | getReq (key : Bytes)
  | delReq (key : Bytes)
  | vdelReq (key : Bytes) (value : Bytes)
  | keyNotifyReq (key : Bytes) (stop : Bool)
deriving DecidableEq, Repr

/-- `state_store::ErrorKind` variants relevant to `client.rs`. -/
inductive ErrKind where
  | invalidArgument (m : String)
  | serviceError (m : String)
  | unexpectedPayload
  | duplicateObserve
  | aioProtocolError (m : String)
deriving DecidableEq, Repr

/-- `state_store::Response<T>`: a mapped payload together with its optional version. -/
structure SSResponse (α : Type) where
  response : α
  version : Option Nat
deriving DecidableEq, Repr

/-- Outcome of one transport invocation: either an underlying protocol error
(surfaced as `AIOProtocolError`) or a service response payload with its version. -/
abbrev InvokeOut := Except String (Resp × Option Nat)

/-- Modelled from the spec: the `rpc_command` request-builder timeout validation is in
`azure_iot_operations_protocol`, not under `src/`; per the spec ("timeout strictly
positive and not exceeding the maximum encodable duration") and the source doc comments
("the `timeout` is zero or > `u32::max`"), a timeout in seconds is valid iff it is
strictly positive and at most `u32::MAX`. -/
def timeout_valid (t : Nat) : Bool :=
  decide (0 < t ∧ t ≤ 4294967295)

/-- Modelled from the spec: `state_store::convert_response` lives in
`state_store/mod.rs`, not under `src/`; per §4.3/§7 it surfaces an explicit service
error response as `ServiceError`, applies the per-operation mapper otherwise, and
turns a mapper rejection into `UnexpectedPayload`, keeping the response version. -/
def convert_response {α : Type} (payload : Resp) (version : Option Nat)
    (f : Resp → Except Unit α) : Except ErrKind (SSResponse α) :=
  match payload with
  | .respError m => .error (.serviceError m)
  | p =>
    match f p with
    | .ok v => .ok ⟨v, version⟩
    | .error _ => .error .unexpectedPayload

/-- Uppercase hex digit for a value below 16 (`data_encoding::HEXUPPER` alphabet). -/
def hexDigit (n : Nat) : Char :=
  if n < 10 then Char.ofNat (48 + n) else Char.ofNat (55 + n)

/-- Character list of the uppercase hex encoding of a byte string. -/
def hexEncodeChars : Bytes → List Char
  | [] => []
  | b :: rest => hexDigit (b / 16) :: hexDigit (b % 16) :: hexEncodeChars rest

/-- `HEXUPPER.encode`: uppercase hex encoding of a byte string. -/
def hexEncode (bs : Bytes) : String :=
  String.mk (hexEncodeChars bs)

/-- Value of one uppercase hex digit, or `none` for any other character
(`HEXUPPER.decode` accepts only `0-9` and `A-F`). -/
def hexDigitVal (c : Char) : Option Nat :=
  if 48 ≤ c.toNat ∧ c.toNat ≤ 57 then some (c.toNat - 48)
  else if 65 ≤ c.toNat ∧ c.toNat ≤ 70 then some (c.toNat - 55)
  else none

/-- Decode a character list as uppercase hex; fails on odd length or bad digits. -/
def hexDecodeChars : List Char → Option Bytes
  | [] => some []
  | [_] => none
  | hi :: lo :: rest =>
    match hexDigitVal hi, hexDigitVal lo, hexDecodeChars rest with
    | some h, some l, some bs => some ((16 * h + l) :: bs)
    | _, _, _ => none

/-- `HEXUPPER.decode`: uppercase hex decoding of a string, `none` on invalid input
(where the Rust call returns `Err` and `client.rs` unwraps). -/
def hexDecode (s : String) : Option Bytes :=
  hexDecodeChars s.data

/-- Modelled from the spec: `Dispatcher::register_receiver` lives in
`common/dispatcher.rs`, not under `src/`; per §4.1, `register(key)` yields a fresh
receiver, or fails if the key is already present. The model keeps only the key set. -/
def register_receiver (r : Registry) (k : String) : Option Registry :=
  if k ∈ r then none else some (k :: r)

/-- Modelled from the spec: `Dispatcher::unregister_receiver` (not under `src/`);
per §4.1, `unregister(key)` reports whether the key was removed and closes its
channel. The model keeps only the key set. -/
def unregister_receiver (r : Registry) (k : String) : Bool × Registry :=
  (decide (k ∈ r), r.erase k)

/-- Modelled from the spec: `Dispatcher::unregister_all` (not under `src/`); per §4.1
it closes every registration's channel and clears the map. -/
def unregister_all (_r : Registry) : Registry := []

/-- Result of one command-facade operation: the returned value or error, the registry
afterwards, and how many transport invocations were performed. -/
structure OpResult (α : Type) where
  result : Except ErrKind α
  registry : Registry
  invocations : Nat
deriving DecidableEq, Repr

/-- The response-mapping closure of `set` (lines 241-245). -/
def set_map : Resp → Except Unit Bool
  | .notApplied => .ok false
  | .ok => .ok true
  | _ => .error ()

/-- `Client::set` (lines 205-247): empty-key check, request build (timeout
validation), one invoke, then response conversion with the `Set` mapper. -/
def set (reg : Registry) (key value : Bytes) (timeout : Nat)
    (_fencing_token : Option Nat) (out : InvokeOut) : OpResult (SSResponse Bool) :=
  if key = [] then ⟨.error (.invalidArgument "key is empty"), reg, 0⟩
  else if timeout_valid timeout = false then
    ⟨.error (.invalidArgument "timeout"), reg, 0⟩
  else
    match out with
    | .error e => ⟨.error (.aioProtocolError e), reg, 1⟩
    | .ok (p, ver) => ⟨convert_response p ver set_map, reg, 1⟩

/-- The response-mapping closure of `get` (lines 287-291). -/
def get_map : Resp → Except Unit (Option Bytes)
  | .value v => .ok (some v)
  | .notFound => .ok none
  | _ => .error ()

/-- `Client::get` (lines 266-293): empty-key check, request build, one invoke, then
response conversion with the `Get` mapper. -/
def get (reg : Registry) (key : Bytes) (timeout : Nat) (out : InvokeOut) :
    OpResult (SSResponse (Option Bytes)) :=
  if key = [] then ⟨.error (.invalidArgument "key is empty"), reg, 0⟩
  else if timeout_valid timeout = false then
    ⟨.error (.invalidArgument "timeout"), reg, 0⟩
  else
    match out with
    | .error e => ⟨.error (.aioProtocolError e), reg, 1⟩
    | .ok (p, ver) => ⟨convert_response p ver get_map, reg, 1⟩

/-- The shared response mapper of `del_internal` (lines 393-398), used by both
`del` and `vdel`. -/
def del_map : Resp → Except Unit Int
  | .notFound => .ok 0
  | .notApplied => .ok (-1)
  | .valuesDeleted n => .ok n
  | _ => .error ()

/-- `Client::del_internal` (lines 368-400): request build (timeout validation), one
invoke, then response conversion with the shared delete mapper. -/
def del_internal (reg : Registry) (_request : Req) (_fencing_token : Option Nat)
    (timeout : Nat) (out : InvokeOut) : OpResult (SSResponse Int) :=
  if timeout_valid timeout = false then
    ⟨.error (.invalidArgument "timeout"), reg, 0⟩
  else
    match out with
    | .error e => ⟨.error (.aioProtocolError e), reg, 1⟩
    | .ok (p, ver) => ⟨convert_response p ver del_map, reg, 1⟩

/-- `Client::del` (lines 312-329): empty-key check, then `del_internal` with a
`Del` request. -/
def del (reg : Registry) (key : Bytes) (fencing_token : Option Nat) (timeout : Nat)
    (out : InvokeOut) : OpResult (SSResponse Int) :=
  if key = [] then ⟨.error (.invalidArgument "key is empty"), reg, 0⟩
  else del_internal reg (.delReq key) fencing_token timeout out

/-- `Client::vdel` (lines 348-366): empty-key check, then `del_internal` with a
`VDel` request. -/
def vdel (reg : Registry) (key value : Bytes) (fencing_token : Option Nat)
    (timeout : Nat) (out : InvokeOut) : OpResult (SSResponse Int) :=
  if key = [] then ⟨.error (.invalidArgument "key is empty"), reg, 0⟩
  else del_internal reg (.vdelReq key value) fencing_token timeout out

/-- The response-mapping closure of `invoke_observe` (lines 424-427). -/
def observe_map : Resp → Except Unit Unit
  | .ok => .ok ()
  | _ => .error ()

/-- `Client::invoke_observe` (lines 403-429): request build (timeout validation), one
invoke, then response conversion with the `Observe` mapper; returns the result with
the number of transport invocations performed. -/
def invoke_observe (timeout : Nat) (out : InvokeOut) :
    Except ErrKind (SSResponse Unit) × Nat :=
  if timeout_valid timeout = false then
    (.error (.invalidArgument "timeout"), 0)
  else
    match out with
    | .error e => (.error (.aioProtocolError e), 1)
    | .ok (p, ver) => (convert_response p ver observe_map, 1)

/-- The caller-facing observation handle (`KeyObservation`, lines 35-40); the receiver
end is abstract, the key is kept for convenience as in the source. -/
structure KeyObservation where
  key : Bytes
deriving DecidableEq, Repr

/-- `Client::observe` (lines 463-502): empty-key check, register the encoded key in
the dispatcher before invoking, fail `DuplicateObserve` on a duplicate with no
transport call, and unregister before propagating any error of `invoke_observe`. -/
def observe (reg : Registry) (key : Bytes) (timeout : Nat) (out : InvokeOut) :
    OpResult (SSResponse KeyObservation) :=
  if key = [] then ⟨.error (.invalidArgument "key is empty"), reg, 0⟩
  else
    let encoded_key_name := hexEncode key
    match register_receiver reg encoded_key_name with
    | none => ⟨.error .duplicateObserve, reg, 0⟩
    | some reg2 =>
      match invoke_observe timeout out with
      | (.ok r, n) => ⟨.ok ⟨⟨key⟩, r.version⟩, reg2, n⟩
      | (.error e, n) => ⟨.error e, (unregister_receiver reg2 encoded_key_name).2, n⟩

/-- The response-mapping closure of `unobserve` (lines 545-549). -/
def unobserve_map : Resp → Except Unit Bool
  | .ok => .ok true
  | .notFound => .ok false
  | _ => .error ()

/-- `Client::unobserve` (lines 520-567): empty-key check, request build (timeout
validation), one invoke, response conversion with the `Unobserve` mapper; on a mapped
success the encoded key is unregistered unconditionally, on any error the registry is
left untouched. -/
def unobserve (reg : Registry) (key : Bytes) (timeout : Nat) (out : InvokeOut) :
    OpResult (SSResponse Bool) :=
  if key = [] then ⟨.error (.invalidArgument "key is empty"), reg, 0⟩
  else if timeout_valid timeout = false then
    ⟨.error (.invalidArgument "timeout"), reg, 0⟩
  else
    match out with
    | .error e => ⟨.error (.aioProtocolError e), reg, 1⟩
    | .ok (p, ver) =>
      match convert_response p ver unobserve_map with
      | .ok r => ⟨.ok r, (unregister_receiver reg (hexEncode key)).2, 1⟩
      | .error e => ⟨.error e, reg, 1⟩

/-- One inbound telemetry message as seen by the routing loop: topic tokens, the
decoded operation payload (abstract), and the optional timestamp. -/
structure TelemetryMsg where
  topic_tokens : List (String × String)
  payload : Bytes
  timestamp : Option Nat
deriving DecidableEq, Repr

/-- One wake-up of the routing loop's `tokio::select!` (lines 585-658): the shutdown
signal (with the outcome of the attempted receiver shutdown), a completed
connected-then-disconnected transition, or the next item of the telemetry receiver
(`none` is end of stream, `Except.error` a receive error). -/
inductive LoopEvent where
  | shutdownSignal (shutdownResult : Except String Unit)
  | disconnected
  | recv (msg : Option (Except String TelemetryMsg))
deriving DecidableEq, Repr

/-- State of `receive_key_notification_loop`: the loop-local shutdown attempt
counter, whether the shutdown notifier currently holds a permit, the dispatcher's
registry, and whether the loop has exited via `break`. -/
structure LoopState where
  shutdown_attempt_count : Nat
  notifyArmed : Bool
  registry : Registry
  terminated : Bool
deriving DecidableEq, Repr

/-- Outcome of one loop iteration: a normal step to a new state, or a panic (the
`.unwrap()` on hex decoding), which aborts the task leaving the state untouched. -/
inductive StepOutcome where
  | stepped (s : LoopState)
  | panicked (s : LoopState)
deriving DecidableEq, Repr

/-- One iteration of `receive_key_notification_loop` (lines 583-660), given the
`select!` arm that fired and its data. -/
def loopStep (s : LoopState) (ev : LoopEvent) : StepOutcome :=
  match ev with
  | .shutdownSignal res =>
    match res with
    | .ok _ => .stepped { s with notifyArmed := false }
    | .error _ =>
      if s.shutdown_attempt_count < 3 then
        .stepped { s with
          shutdown_attempt_count := s.shutdown_attempt_count + 1,
          notifyArmed := true }
      else
        .stepped { s with notifyArmed := false }
  | .disconnected =>
    .stepped { s with registry := unregister_all s.registry }
  | .recv none =>
    .stepped { s with registry := unregister_all s.registry, terminated := true }
  | .recv (some (.error _)) =>
    if s.shutdown_attempt_count < 3 then
      .stepped { s with notifyArmed := true }
    else
      .stepped s
  | .recv (some (.ok m)) =>
    match m.topic_tokens.lookup "encodedKeyName" with
    | none => .stepped s
    | some key_name =>
      match hexDecode key_name with
      | none => .panicked s
      | some _decoded =>
        match m.timestamp with
        | none => .stepped s
        | some _ts => .stepped s

/-- Run the loop over a sequence of events, stopping at `break` or at a panic. -/
def runLoop : LoopState → List LoopEvent → LoopState
  | s, [] => s
  | s, ev :: rest =>
    if s.terminated then s
    else
      match loopStep s ev with
      | .stepped s2 => runLoop s2 rest
      | .panicked s2 => s2

/-- Loop state at entry of `receive_key_notification_loop` (line 583): counter zero,
no pending shutdown permit, loop running. -/
def initialLoopState (reg : Registry) : LoopState :=
  { shutdown_attempt_count := 0, notifyArmed := false, registry := reg,
    terminated := false }

/-- Observable actions of `Client::shutdown`, in order. -/
inductive ShutdownAction where
  | fireShutdownSignal
  | invokerShutdown
deriving DecidableEq, Repr

/-- `Client::shutdown` (lines 178-186): notify the receiver loop, then request the
invoker's shutdown; the returned value is exactly the invoker's outcome. -/
def client_shutdown (invoker_out : Except String Unit) :
    Except ErrKind Unit × List ShutdownAction :=
  match invoker_out with
  | .ok _ => (.ok (), [.fireShutdownSignal, .invokerShutdown])
  | .error e => (.error (.aioProtocolError e), [.fireShutdownSignal, .invokerShutdown])

/-! ## Helper lemmas -/

theorem observe_of_mem (reg : Registry) (key : Bytes) (t : Nat) (out : InvokeOut)
    (hk : key ≠ []) (hm : hexEncode key ∈ reg) :
    observe reg key t out = ⟨.error .duplicateObserve, reg, 0⟩ := by
  simp [observe, hk, register_receiver, hm]

theorem observe_invoke_error (reg : Registry) (key : Bytes) (t : Nat) (e : String)
    (hk : key ≠ []) (hm : hexEncode key ∉ reg) (ht : timeout_valid t = true) :
    observe reg key t (.error e) = ⟨.error (.aioProtocolError e), reg, 1⟩ := by
  simp [observe, hk, register_receiver, hm, invoke_observe, ht, unregister_receiver,
    List.erase_cons_head]

theorem observe_map_error (reg : Registry) (key : Bytes) (t : Nat) (p : Resp)
    (ver : Option Nat) (ek : ErrKind) (hk : key ≠ []) (hm : hexEncode key ∉ reg)
    (ht : timeout_valid t = true)
    (hc : convert_response p ver observe_map = .error ek) :
    observe reg key t (.ok (p, ver)) = ⟨.error ek, reg, 1⟩ := by
  simp [observe, hk, register_receiver, hm, invoke_observe, ht, hc,
    unregister_receiver, List.erase_cons_head]

theorem observe_bad_timeout (reg : Registry) (key : Bytes) (t : Nat) (out : InvokeOut)
    (hk : key ≠ []) (hm : hexEncode key ∉ reg) (ht : timeout_valid t = false) :
    observe reg key t out = ⟨.error (.invalidArgument "timeout"), reg, 0⟩ := by
  simp [observe, hk, register_receiver, hm, invoke_observe, ht, unregister_receiver,
    List.erase_cons_head]

theorem observe_success (reg : Registry) (key : Bytes) (t : Nat) (ver : Option Nat)
    (hk : key ≠ []) (hm : hexEncode key ∉ reg) (ht : timeout_valid t = true) :
    observe reg key t (.ok (.ok, ver)) =
      ⟨.ok ⟨⟨key⟩, ver⟩, hexEncode key :: reg, 1⟩ := by
  simp [observe, hk, register_receiver, hm, invoke_observe, ht, convert_response,
    observe_map]

theorem unobserve_success_ok (reg : Registry) (key : Bytes) (t : Nat)
    (ver : Option Nat) (hk : key ≠ []) (ht : timeout_valid t = true) :
    unobserve reg key t (.ok (.ok, ver)) =
      ⟨.ok ⟨true, ver⟩, reg.erase (hexEncode key), 1⟩ := by
  simp [unobserve, hk, ht, convert_response, unobserve_map, unregister_receiver]

theorem unobserve_success_notFound (reg : Registry) (key : Bytes) (t : Nat)
    (ver : Option Nat) (hk : key ≠ []) (ht : timeout_valid t = true) :
    unobserve reg key t (.ok (.notFound, ver)) =
      ⟨.ok ⟨false, ver⟩, reg.erase (hexEncode key), 1⟩ := by
  simp [unobserve, hk, ht, convert_response, unobserve_map, unregister_receiver]

theorem unobserve_invoke_error (reg : Registry) (key : Bytes) (t : Nat) (e : String)
    (hk : key ≠ []) (ht : timeout_valid t = true) :
    unobserve reg key t (.error e) = ⟨.error (.aioProtocolError e), reg, 1⟩ := by
  simp [unobserve, hk, ht]

theorem unobserve_map_error (reg : Registry) (key : Bytes) (t : Nat) (p : Resp)
    (ver : Option Nat) (ek : ErrKind) (hk : key ≠ []) (ht : timeout_valid t = true)
    (hc : convert_response p ver unobserve_map = .error ek) :
    unobserve reg key t (.ok (p, ver)) = ⟨.error ek, reg, 1⟩ := by
  simp [unobserve, hk, ht, hc]

theorem unobserve_bad_timeout (reg : Registry) (key : Bytes) (t : Nat)
    (out : InvokeOut) (hk : key ≠ []) (ht : timeout_valid t = false) :
    unobserve reg key t out = ⟨.error (.invalidArgument "timeout"), reg, 0⟩ := by
  simp [unobserve, hk, ht]

theorem set_bad_timeout (reg : Registry) (key value : Bytes) (t : Nat)
    (ft : Option Nat) (out : InvokeOut) (hk : key ≠ []) (ht : timeout_valid t = false) :
    set reg key value t ft out = ⟨.error (.invalidArgument "timeout"), reg, 0⟩ := by
  simp [set, hk, ht]

theorem get_bad_timeout (reg : Registry) (key : Bytes) (t : Nat) (out : InvokeOut)
    (hk : key ≠ []) (ht : timeout_valid t = false) :
    get reg key t out = ⟨.error (.invalidArgument "timeout"), reg, 0⟩ := by
  simp [get, hk, ht]

theorem del_bad_timeout (reg : Registry) (key : Bytes) (ft : Option Nat) (t : Nat)
    (out : InvokeOut) (hk : key ≠ []) (ht : timeout_valid t = false) :
    del reg key ft t out = ⟨.error (.invalidArgument "timeout"), reg, 0⟩ := by
  simp [del, del_internal, hk, ht]

theorem vdel_bad_timeout (reg : Registry) (key value : Bytes) (ft : Option Nat)
    (t : Nat) (out : InvokeOut) (hk : key ≠ []) (ht : timeout_valid t = false) :
    vdel reg key value ft t out = ⟨.error (.invalidArgument "timeout"), reg, 0⟩ := by
  simp [vdel, del_internal, hk, ht]

theorem loopStep_count_cases (s : LoopState) (ev : LoopEvent) (s2 : LoopState)
    (h : loopStep s ev = .stepped s2) :
    s2.shutdown_attempt_count = s.shutdown_attempt_count ∨
      (s2.shutdown_attempt_count = s.shutdown_attempt_count + 1 ∧
        s.shutdown_attempt_count < 3 ∧ ∃ e, ev = .shutdownSignal (.error e)) := by
  rcases ev with res | _ | msg
  · rcases res with e | u
    · by_cases hc : s.shutdown_attempt_count < 3 <;> simp [loopStep, hc] at h <;>
        subst h
      · right; exact ⟨rfl, hc, e, rfl⟩
      · left; rfl
    · simp [loopStep] at h
      subst h; left; rfl
  · simp [loopStep] at h
    subst h; left; rfl
  · rcases msg with _ | em
    · simp [loopStep] at h
      subst h; left; rfl
    · rcases em with e | tm
      · by_cases hc : s.shutdown_attempt_count < 3 <;> simp [loopStep, hc] at h <;>
          (subst h; left; rfl)
      · rcases hl : tm.topic_tokens.lookup "encodedKeyName" with _ | kn
        · simp [loopStep, hl] at h
          subst h; left; rfl
        · rcases hd : hexDecode kn with _ | bs
          · simp [loopStep, hl, hd] at h
          · rcases htm : tm.timestamp with _ | ts <;>
              simp [loopStep, hl, hd, htm] at h <;> (subst h; left; rfl)

theorem loopStep_panicked_eq (s : LoopState) (ev : LoopEvent) (s2 : LoopState)
    (h : loopStep s ev = .panicked s2) : s2 = s := by
  rcases ev with res | _ | msg
  · rcases res with e | u
    · by_cases hc : s.shutdown_attempt_count < 3 <;> simp [loopStep, hc] at h
    · simp [loopStep] at h
  · simp [loopStep] at h
  · rcases msg with _ | em
    · simp [loopStep] at h
    · rcases em with e | tm
      · by_cases hc : s.shutdown_attempt_count < 3 <;> simp [loopStep, hc] at h
      · rcases hl : tm.topic_tokens.lookup "encodedKeyName" with _ | kn
        · simp [loopStep, hl] at h
        · rcases hd : hexDecode kn with _ | bs
          · simp [loopStep, hl, hd] at h
            exact h.symm
          · rcases htm : tm.timestamp with _ | ts <;>
              simp [loopStep, hl, hd, htm] at h

theorem loopStep_terminated_eq (s : LoopState) (ev : LoopEvent) (s2 : LoopState)
    (h : loopStep s ev = .stepped s2) (hne : ev ≠ .recv none) :
    s2.terminated = s.terminated := by
  rcases ev with res | _ | msg
  · rcases res with e | u
    · by_cases hc : s.shutdown_attempt_count < 3 <;> simp [loopStep, hc] at h <;>
        (subst h; rfl)
    · simp [loopStep] at h
      subst h; rfl
  · simp [loopStep] at h
    subst h; rfl
  · rcases msg with _ | em
    · exact absurd rfl hne
    · rcases em with e | tm
      · by_cases hc : s.shutdown_attempt_count < 3 <;> simp [loopStep, hc] at h <;>
          (subst h; rfl)
      · rcases hl : tm.topic_tokens.lookup "encodedKeyName" with _ | kn
        · simp [loopStep, hl] at h
          subst h; rfl
        · rcases hd : hexDecode kn with _ | bs
          · simp [loopStep, hl, hd] at h
          · rcases htm : tm.timestamp with _ | ts <;>
              simp [loopStep, hl, hd, htm] at h <;> (subst h; rfl)

theorem runLoop_count_le (evs : List LoopEvent) (s : LoopState)
    (hs : s.shutdown_attempt_count ≤ 3) :
    (runLoop s evs).shutdown_attempt_count ≤ 3 := by
  induction evs generalizing s with
  | nil => exact hs
  | cons ev rest ih =>
    by_cases hterm : s.terminated
    · simp [runLoop, hterm]
      exact hs
    · simp only [runLoop, hterm, if_false]
      cases hstep : loopStep s ev with
      | stepped s2 =>
        apply ih
        rcases loopStep_count_cases s ev s2 hstep with hh | ⟨hh, hc, _⟩ <;> omega
      | panicked s2 =>
        rw [loopStep_panicked_eq s ev s2 hstep]
        exact hs

theorem runLoop_terminated_fix (s : LoopState) (evs : List LoopEvent)
    (h : s.terminated = true) : runLoop s evs = s := by
  cases evs with
  | nil => rfl
  | cons ev rest => simp [runLoop, h]

/-! ## Claim theorems -/

/-- Claim C1 is false as stated: the claim says that for the delete operation the
only mapped success cases are NotFound→0 and ValuesDeleted(n)→n, and any other
response variant — including NotApplied — fails UnexpectedPayload. In the code,
`del` routes through the shared `del_internal`, whose mapper sends NotApplied to
`Ok(-1)`, so a plain delete of key `[107]` with a NotApplied response returns `-1`
rather than an UnexpectedPayload error. -/
theorem c1_delete_notApplied_counterexample :
    (del [] [107] none 5 (.ok (.notApplied, none))).result = .ok ⟨-1, none⟩ ∧
      (del [] [107] none 5 (.ok (.notApplied, none))).result ≠
        .error .unexpectedPayload := by
  decide

/-- Claim C1 (amended): response mapping matches the §4.3 table for every operation,
except that delete shares conditional-delete's mapper (both route through
`del_internal`), so delete also maps NotApplied→−1. For each operation the facade
applies its mapper through `convert_response`; the mappers send exactly the listed
variants to successes; any other non-service-error variant becomes UnexpectedPayload,
and a service error response becomes ServiceError. -/
theorem c1_response_mapping_amended :
    (∀ (p : Resp) (ver : Option Nat) (reg : Registry) (key value : Bytes) (t : Nat)
        (ft : Option Nat), key ≠ [] → timeout_valid t = true →
      (set reg key value t ft (.ok (p, ver))).result = convert_response p ver set_map) ∧
    (∀ (p : Resp) (ver : Option Nat) (reg : Registry) (key : Bytes) (t : Nat),
        key ≠ [] → timeout_valid t = true →
      (get reg key t (.ok (p, ver))).result = convert_response p ver get_map) ∧
    (∀ (p : Resp) (ver : Option Nat) (reg : Registry) (key : Bytes) (ft : Option Nat)
        (t : Nat), key ≠ [] → timeout_valid t = true →
      (del reg key ft t (.ok (p, ver))).result = convert_response p ver del_map) ∧
    (∀ (p : Resp) (ver : Option Nat) (reg : Registry) (key value : Bytes)
        (ft : Option Nat) (t : Nat), key ≠ [] → timeout_valid t = true →
      (vdel reg key value ft t (.ok (p, ver))).result = convert_response p ver del_map) ∧
    (∀ (p : Resp) (ver : Option Nat) (t : Nat), timeout_valid t = true →
      (invoke_observe t (.ok (p, ver))).1 = convert_response p ver observe_map) ∧
    (∀ (p : Resp) (ver : Option Nat) (reg : Registry) (key : Bytes) (t : Nat),
        key ≠ [] → timeout_valid t = true →
      (unobserve reg key t (.ok (p, ver))).result =
        convert_response p ver unobserve_map) ∧
    (set_map .notApplied = .ok false ∧ set_map .ok = .ok true ∧
      (∀ v, set_map (.value v) = .error ()) ∧ set_map .notFound = .error () ∧
      (∀ n, set_map (.valuesDeleted n) = .error ())) ∧
    ((∀ v, get_map (.value v) = .ok (some v)) ∧ get_map .notFound = .ok none ∧
      get_map .ok = .error () ∧ get_map .notApplied = .error () ∧
      (∀ n, get_map (.valuesDeleted n) = .error ())) ∧
    (del_map .notFound = .ok 0 ∧ del_map .notApplied = .ok (-1) ∧
      (∀ n, del_map (.valuesDeleted n) = .ok n) ∧ del_map .ok = .error () ∧
      (∀ v, del_map (.value v) = .error ())) ∧
    (observe_map .ok = .ok () ∧ observe_map .notFound = .error () ∧
      observe_map .notApplied = .error ()) ∧
    (unobserve_map .ok = .ok true ∧ unobserve_map .notFound = .ok false ∧
      unobserve_map .notApplied = .error () ∧
      (∀ v, unobserve_map (.value v) = .error ())) ∧
    (∀ (α : Type) (f : Resp → Except Unit α) (p : Resp) (ver : Option Nat),
      (∀ m, p ≠ .respError m) → f p = .error () →
      convert_response p ver f = .error .unexpectedPayload) ∧
    (∀ (α : Type) (f : Resp → Except Unit α) (p : Resp) (ver : Option Nat) (v : α),
      (∀ m, p ≠ .respError m) → f p = .ok v →
      convert_response p ver f = .ok ⟨v, ver⟩) ∧
    (∀ (α : Type) (f : Resp → Except Unit α) (m : String) (ver : Option Nat),
      convert_response (.respError m) ver f = .error (.serviceError m)) := by
  refine ⟨?_, ?_, ?_, ?_, ?_, ?_, ?_, ?_, ?_, ?_, ?_, ?_, ?_, ?_⟩
  · intro p ver reg key value t ft hk ht
    simp [set, hk, ht]
  · intro p ver reg key t hk ht
    simp [get, hk, ht]
  · intro p ver reg key ft t hk ht
    simp [del, del_internal, hk, ht]
  · intro p ver reg key value ft t hk ht
    simp [vdel, del_internal, hk, ht]
  · intro p ver t ht
    simp [invoke_observe, ht]
  · intro p ver reg key t hk ht
    rcases hc : convert_response p ver unobserve_map with r | er <;>
      simp [unobserve, hk, ht, hc]
  · exact ⟨rfl, rfl, fun v => rfl, rfl, fun n => rfl⟩
  · exact ⟨fun v => rfl, rfl, rfl, rfl, fun n => rfl⟩
  · exact ⟨rfl, rfl, fun n => rfl, rfl, fun v => rfl⟩
  · exact ⟨rfl, rfl, rfl⟩
  · exact ⟨rfl, rfl, rfl, fun v => rfl⟩
  · intro α f p ver hne hf
    cases p
    case respError m => exact absurd rfl (hne m)
    all_goals simp [convert_response, hf]
  · intro α f p ver v hne hf
    cases p
    case respError m => exact absurd rfl (hne m)
    all_goals simp [convert_response, hf]
  · intro α f m ver
    rfl

/-- Witness for C1 (amended) at concrete inputs: a conditional delete of key `[107]`
with a NotApplied response goes through `convert_response` with the shared delete
mapper. -/
theorem c1_response_mapping_amended_witness :
    (vdel [] [107] [1] none 5 (.ok (.notApplied, none))).result =
      convert_response .notApplied none del_map :=
  c1_response_mapping_amended.2.2.2.1 .notApplied none [] [107] [1] none 5
    (by decide) (by decide)

/-- Claim C2: start-observe registers the key locally before invoking the transport:
if registration fails because the key is already registered, the call fails
DuplicateObserve with zero transport invocations and an unchanged registry; if the
subsequent transport invoke fails (underlying error or bad payload), the registration
is removed before the error is propagated, restoring the registry exactly; hence a
repeat start_observe on the same key succeeds with a fresh handle. -/
theorem c2_observe_registration_protocol :
    (∀ (reg : Registry) (key : Bytes) (t : Nat) (out : InvokeOut), key ≠ [] →
      hexEncode key ∈ reg →
      observe reg key t out = ⟨.error .duplicateObserve, reg, 0⟩) ∧
    (∀ (reg : Registry) (key : Bytes) (t : Nat) (e : String), key ≠ [] →
      hexEncode key ∉ reg → timeout_valid t = true →
      observe reg key t (.error e) = ⟨.error (.aioProtocolError e), reg, 1⟩) ∧
    (∀ (reg : Registry) (key : Bytes) (t : Nat) (p : Resp) (ver : Option Nat)
        (ek : ErrKind), key ≠ [] → hexEncode key ∉ reg → timeout_valid t = true →
      convert_response p ver observe_map = .error ek →
      observe reg key t (.ok (p, ver)) = ⟨.error ek, reg, 1⟩) ∧
    (∀ (reg : Registry) (key : Bytes) (t : Nat) (ver : Option Nat), key ≠ [] →
      hexEncode key ∉ reg → timeout_valid t = true →
      observe reg key t (.ok (.ok, ver)) =
        ⟨.ok ⟨⟨key⟩, ver⟩, hexEncode key :: reg, 1⟩) ∧
    (∀ (reg : Registry) (key : Bytes) (t t2 : Nat) (e : String) (ver : Option Nat),
      key ≠ [] → hexEncode key ∉ reg → timeout_valid t = true →
      timeout_valid t2 = true →
      observe (observe reg key t (.error e)).registry key t2 (.ok (.ok, ver)) =
        ⟨.ok ⟨⟨key⟩, ver⟩, hexEncode key :: reg, 1⟩) := by
  refine ⟨observe_of_mem, observe_invoke_error, observe_map_error, observe_success,
    ?_⟩
  intro reg key t t2 e ver hk hm ht ht2
  rw [observe_invoke_error reg key t e hk hm ht]
  exact observe_success reg key t2 ver hk hm ht2

/-- Witness for C2 at concrete inputs: key `[107]`, registry initially empty, a
failed invoke restores the registry and a repeat observe succeeds; a duplicate
observe on a registry already holding the encoded key fails DuplicateObserve with
no transport invocation. -/
theorem c2_observe_registration_protocol_witness :
    observe [hexEncode [107]] [107] 5 (.ok (.ok, none)) =
        ⟨.error .duplicateObserve, [hexEncode [107]], 0⟩ ∧
      observe (observe [] [107] 5 (.error "timeout")).registry [107] 5
          (.ok (.ok, some 9)) =
        ⟨.ok ⟨⟨[107]⟩, some 9⟩, [hexEncode [107]], 1⟩ :=
  ⟨c2_observe_registration_protocol.1 [hexEncode [107]] [107] 5 (.ok (.ok, none))
      (by decide) (by decide),
    c2_observe_registration_protocol.2.2.2.2 [] [107] 5 5 "timeout" (some 9)
      (by decide) (by decide) (by decide) (by decide)⟩

/-- Claim C3 is false as stated: the claim says the loop-local shutdown-retry counter
is incremented from either triggering branch. In the code, the receive-error branch
(lines 646-648) only checks the counter and re-arms the shutdown signal without
incrementing it: from a state with counter 0, a receive error re-arms the notifier
yet leaves the counter at 0. -/
theorem c3_recv_error_no_increment_counterexample :
    loopStep ⟨0, false, [], false⟩ (.recv (some (.error "sub lost"))) =
      .stepped ⟨0, true, [], false⟩ := by
  decide

/-- Claim C3 (amended): the transport-level unsubscribe retry is driven by a single
loop-local counter, initialized once at loop start and never reset or decremented; it
is read by both the shutdown branch and the receive-error branch, but incremented
only by the shutdown branch on a failed shutdown (the receive-error branch re-arms
the signal without incrementing); while the counter is below 3 a failed shutdown
re-arms the signal and increments, and once it reaches 3 neither branch re-arms, so
at most 3 failure-driven retries occur in any execution, while the loop keeps running
(its terminated flag is untouched by both branches). -/
theorem c3_shutdown_retry_amended :
    (∀ (s : LoopState) (e : String), s.shutdown_attempt_count < 3 →
      loopStep s (.shutdownSignal (.error e)) =
        .stepped { s with shutdown_attempt_count := s.shutdown_attempt_count + 1,
                          notifyArmed := true }) ∧
    (∀ (s : LoopState) (e : String), ¬ s.shutdown_attempt_count < 3 →
      loopStep s (.shutdownSignal (.error e)) =
        .stepped { s with notifyArmed := false }) ∧
    (∀ (s : LoopState) (e : String), s.shutdown_attempt_count < 3 →
      loopStep s (.recv (some (.error e))) = .stepped { s with notifyArmed := true }) ∧
    (∀ (s : LoopState) (e : String), ¬ s.shutdown_attempt_count < 3 →
      loopStep s (.recv (some (.error e))) = .stepped s) ∧
    (∀ (s : LoopState) (ev : LoopEvent) (s2 : LoopState),
      loopStep s ev = .stepped s2 →
      s2.shutdown_attempt_count = s.shutdown_attempt_count ∨
        (s2.shutdown_attempt_count = s.shutdown_attempt_count + 1 ∧
          s.shutdown_attempt_count < 3 ∧ ∃ e, ev = .shutdownSignal (.error e))) ∧
    ((initialLoopState []).shutdown_attempt_count = 0) ∧
    (∀ (reg : Registry) (evs : List LoopEvent),
      (runLoop (initialLoopState reg) evs).shutdown_attempt_count ≤ 3) := by
  refine ⟨?_, ?_, ?_, ?_, loopStep_count_cases, rfl, ?_⟩
  · intro s e hc
    simp [loopStep, hc]
  · intro s e hc
    simp [loopStep, hc]
  · intro s e hc
    simp [loopStep, hc]
  · intro s e hc
    simp [loopStep, hc]
  · intro reg evs
    exact runLoop_count_le evs (initialLoopState reg) (by simp [initialLoopState])

/-- Witness for C3 (amended) at concrete inputs: a failed shutdown attempt at
counter 2 increments the counter to 3 and re-arms the signal. -/
theorem c3_shutdown_retry_amended_witness :
    loopStep ⟨2, true, [], false⟩ (.shutdownSignal (.error "unsub failed")) =
      .stepped ⟨3, true, [], false⟩ :=
  c3_shutdown_retry_amended.1 ⟨2, true, [], false⟩ "unsub failed" (by decide)

/-- Claim C4: when the inbound notification stream ends (the receiver yields
end-of-stream), the routing loop calls unregister_all — emptying the registry — and
sets its terminated flag; among normal (non-panicking) steps of a running loop,
stream end is the only event that terminates it, and a terminated loop never runs
again. -/
theorem c4_stream_end_terminal :
    (∀ s : LoopState, loopStep s (.recv none) =
      .stepped { s with registry := [], terminated := true }) ∧
    (∀ (s : LoopState) (ev : LoopEvent) (s2 : LoopState), s.terminated = false →
      loopStep s ev = .stepped s2 → (s2.terminated = true ↔ ev = .recv none)) ∧
    (∀ (s : LoopState) (evs : List LoopEvent), s.terminated = true →
      runLoop s evs = s) := by
  refine ⟨fun s => rfl, ?_, runLoop_terminated_fix⟩
  intro s ev s2 hterm hstep
  constructor
  · intro h2
    by_contra hne
    rw [loopStep_terminated_eq s ev s2 hstep hne, hterm] at h2
    exact Bool.false_ne_true h2
  · intro hev
    subst hev
    have h : loopStep s (.recv none) =
        .stepped { s with registry := [], terminated := true } := rfl
    rw [h] at hstep
    have := StepOutcome.stepped.inj hstep
    rw [← this]

/-- Witness for C4 at concrete inputs: from a running state with one observed key,
stream end steps to the terminated state with an empty registry, and that state is a
fixed point of the loop. -/
theorem c4_stream_end_terminal_witness :
    ((⟨0, false, [], true⟩ : LoopState).terminated = true ↔
        LoopEvent.recv none = LoopEvent.recv none) ∧
      runLoop ⟨0, false, [], true⟩ [.disconnected] = ⟨0, false, [], true⟩ :=
  ⟨c4_stream_end_terminal.2.1 ⟨0, false, ["6B"], false⟩ (.recv none)
      ⟨0, false, [], true⟩ (by decide) (by decide),
    c4_stream_end_terminal.2.2 ⟨0, false, [], true⟩ [.disconnected] (by decide)⟩

/-- Claim C5: on every observed connection disconnect transition the routing loop
calls unregister_all unconditionally, so the registry is empty immediately after the
step while every other field — including the terminated flag — is unchanged, and a
subsequent start_observe on any key succeeds with a fresh handle. -/
theorem c5_disconnect_registry_empty :
    (∀ s : LoopState, loopStep s .disconnected = .stepped { s with registry := [] }) ∧
    (∀ (reg : Registry) (key : Bytes) (t : Nat) (ver : Option Nat), key ≠ [] →
      timeout_valid t = true →
      observe (unregister_all reg) key t (.ok (.ok, ver)) =
        ⟨.ok ⟨⟨key⟩, ver⟩, [hexEncode key], 1⟩) := by
  refine ⟨fun s => rfl, ?_⟩
  intro reg key t ver hk ht
  exact observe_success [] key t ver hk (List.not_mem_nil _) ht

/-- Witness for C5 at concrete inputs: after a disconnect wipes a registry that was
observing key `[107]`, a fresh observe of `[107]` succeeds with a fresh handle. -/
theorem c5_disconnect_registry_empty_witness :
    observe (unregister_all [hexEncode [107]]) [107] 5 (.ok (.ok, some 4)) =
      ⟨.ok ⟨⟨[107]⟩, some 4⟩, [hexEncode [107]], 1⟩ :=
  c5_disconnect_registry_empty.2 [hexEncode [107]] [107] 5 (some 4)
    (by decide) (by decide)

/-- Claim C6: every command-facade operation (set, get, delete, conditional-delete,
start-observe, stop-observe) invoked with an empty key fails with an
InvalidArgument error, leaves the registry unchanged, and performs zero transport
invocations. -/
theorem c6_empty_key_argument_error :
    ∀ (reg : Registry) (value : Bytes) (t : Nat) (ft : Option Nat) (out : InvokeOut),
      set reg [] value t ft out = ⟨.error (.invalidArgument "key is empty"), reg, 0⟩ ∧
      get reg [] t out = ⟨.error (.invalidArgument "key is empty"), reg, 0⟩ ∧
      del reg [] ft t out = ⟨.error (.invalidArgument "key is empty"), reg, 0⟩ ∧
      vdel reg [] value ft t out = ⟨.error (.invalidArgument "key is empty"), reg, 0⟩ ∧
      observe reg [] t out = ⟨.error (.invalidArgument "key is empty"), reg, 0⟩ ∧
      unobserve reg [] t out = ⟨.error (.invalidArgument "key is empty"), reg, 0⟩ := by
  intro reg value t ft out
  exact ⟨rfl, rfl, rfl, rfl, rfl, rfl⟩

/-- Claim C7 is false as stated: the claim says every operation with an invalid
timeout fails ArgumentError regardless of any other client state, including a key
that is already being observed. For start-observe, registration precedes the timeout
validation (which happens inside invoke_observe's request build): observing key
`[107]` with the invalid timeout 0 while the key is already registered fails
DuplicateObserve, not InvalidArgument. -/
theorem c7_observed_key_timeout_counterexample :
    timeout_valid 0 = false ∧
      (observe [hexEncode [107]] [107] 0 (.ok (.ok, none))).result =
        .error .duplicateObserve := by
  decide

/-- Claim C7 (amended): every command-facade operation invoked with a timeout of
zero or above the maximum encodable duration fails InvalidArgument before any
transport invocation, except start-observe on a key that is already being observed,
which fails DuplicateObserve (the local registration check precedes timeout
validation); in every case zero transport invocations are performed and the registry
is left as it was. -/
theorem c7_timeout_validation_amended :
    (∀ (reg : Registry) (key value : Bytes) (t : Nat) (ft : Option Nat)
        (out : InvokeOut), key ≠ [] → timeout_valid t = false →
      set reg key value t ft out = ⟨.error (.invalidArgument "timeout"), reg, 0⟩) ∧
    (∀ (reg : Registry) (key : Bytes) (t : Nat) (out : InvokeOut), key ≠ [] →
      timeout_valid t = false →
      get reg key t out = ⟨.error (.invalidArgument "timeout"), reg, 0⟩) ∧
    (∀ (reg : Registry) (key : Bytes) (ft : Option Nat) (t : Nat) (out : InvokeOut),
      key ≠ [] → timeout_valid t = false →
      del reg key ft t out = ⟨.error (.invalidArgument "timeout"), reg, 0⟩) ∧
    (∀ (reg : Registry) (key value : Bytes) (ft : Option Nat) (t : Nat)
        (out : InvokeOut), key ≠ [] → timeout_valid t = false →
      vdel reg key value ft t out = ⟨.error (.invalidArgument "timeout"), reg, 0⟩) ∧
    (∀ (reg : Registry) (key : Bytes) (t : Nat) (out : InvokeOut), key ≠ [] →
      timeout_valid t = false →
      unobserve reg key t out = ⟨.error (.invalidArgument "timeout"), reg, 0⟩) ∧
    (∀ (reg : Registry) (key : Bytes) (t : Nat) (out : InvokeOut), key ≠ [] →
      hexEncode key ∉ reg → timeout_valid t = false →
      observe reg key t out = ⟨.error (.invalidArgument "timeout"), reg, 0⟩) ∧
    (∀ (reg : Registry) (key : Bytes) (t : Nat) (out : InvokeOut), key ≠ [] →
      hexEncode key ∈ reg →
      observe reg key t out = ⟨.error .duplicateObserve, reg, 0⟩) := by
  exact ⟨set_bad_timeout, get_bad_timeout, del_bad_timeout, vdel_bad_timeout,
    unobserve_bad_timeout, observe_bad_timeout, observe_of_mem⟩

/-- Witness for C7 (amended) at concrete inputs: set with timeout 0 fails
InvalidArgument with zero transport invocations; observe of an already-observed key
with timeout 0 fails DuplicateObserve with zero transport invocations. -/
theorem c7_timeout_validation_amended_witness :
    set [] [107] [1] 0 none (.ok (.ok, none)) =
        ⟨.error (.invalidArgument "timeout"), [], 0⟩ ∧
      observe [hexEncode [107]] [107] 0 (.ok (.ok, none)) =
        ⟨.error .duplicateObserve, [hexEncode [107]], 0⟩ :=
  ⟨c7_timeout_validation_amended.1 [] [107] [1] 0 none (.ok (.ok, none))
      (by decide) (by decide),
    c7_timeout_validation_amended.2.2.2.2.2.2 [hexEncode [107]] [107] 0
      (.ok (.ok, none)) (by decide) (by decide)⟩

/-- Claim C8: stop-observe invokes the transport first, and whenever the transport
response maps to a success (Ok→true or NotFound→false) it unregisters the encoded
key locally unconditionally — the registration is removed (by erasure) regardless of
whether the service reported the key as found; on a transport error or a mapping
error the local registration is not removed. -/
theorem c8_unobserve_unregister :
    (∀ (reg : Registry) (key : Bytes) (t : Nat) (ver : Option Nat), key ≠ [] →
      timeout_valid t = true →
      unobserve reg key t (.ok (.ok, ver)) =
        ⟨.ok ⟨true, ver⟩, reg.erase (hexEncode key), 1⟩) ∧
    (∀ (reg : Registry) (key : Bytes) (t : Nat) (ver : Option Nat), key ≠ [] →
      timeout_valid t = true →
      unobserve reg key t (.ok (.notFound, ver)) =
        ⟨.ok ⟨false, ver⟩, reg.erase (hexEncode key), 1⟩) ∧
    (∀ (reg : Registry) (key : Bytes) (t : Nat) (e : String), key ≠ [] →
      timeout_valid t = true →
      unobserve reg key t (.error e) = ⟨.error (.aioProtocolError e), reg, 1⟩) ∧
    (∀ (reg : Registry) (key : Bytes) (t : Nat) (p : Resp) (ver : Option Nat)
        (ek : ErrKind), key ≠ [] → timeout_valid t = true →
      convert_response p ver unobserve_map = .error ek →
      unobserve reg key t (.ok (p, ver)) = ⟨.error ek, reg, 1⟩) :=
  ⟨unobserve_success_ok, unobserve_success_notFound, unobserve_invoke_error,
    unobserve_map_error⟩

/-- Witness for C8 at concrete inputs: a NotFound response to stop-observe still
removes the local registration of key `[107]` (the service did not find the key, yet
the registry entry is erased); an UnexpectedPayload response leaves it in place. -/
theorem c8_unobserve_unregister_witness :
    unobserve [hexEncode [107]] [107] 5 (.ok (.notFound, none)) =
        ⟨.ok ⟨false, none⟩, [], 1⟩ ∧
      unobserve [hexEncode [107]] [107] 5 (.ok (.notApplied, none)) =
        ⟨.error .unexpectedPayload, [hexEncode [107]], 1⟩ :=
  ⟨c8_unobserve_unregister.2.1 [hexEncode [107]] [107] 5 none (by decide) (by decide),
    c8_unobserve_unregister.2.2.2 [hexEncode [107]] [107] 5 .notApplied none
      .unexpectedPayload (by decide) (by decide) (by decide)⟩

/-- Claim C9: shutdown() first fires the shutdown signal for the routing loop and
then requests transport-invoker shutdown, and its returned value reflects only the
invoker's shutdown outcome; the routing loop's own retry state does not appear in
the function at all, and the action sequence is the same on success and on failure
(so the call may be repeated). -/
theorem c9_shutdown_invoker_result :
    (∀ e : String, client_shutdown (.error e) =
      (.error (.aioProtocolError e), [.fireShutdownSignal, .invokerShutdown])) ∧
    client_shutdown (.ok ()) = (.ok (), [.fireShutdownSignal, .invokerShutdown]) ∧
    (∀ o : Except String Unit,
      (client_shutdown o).2 = [.fireShutdownSignal, .invokerShutdown]) := by
  refine ⟨fun e => rfl, rfl, ?_⟩
  intro o
  cases o <;> rfl

/-- Claim C10: there is an inbound notification on which the routing loop panics
rather than discarding and continuing: a notification whose encodedKeyName topic
token is present but not valid uppercase hex (here "ZZ") makes the loop unwrap a
failed hex decode and panic, aborting the task with the registry untouched — in
particular without calling unregister_all; the decode step is not total. -/
theorem c10_hex_decode_panic :
    hexDecode "ZZ" = none ∧
      loopStep ⟨0, false, ["AA"], false⟩
          (.recv (some (.ok ⟨[("encodedKeyName", "ZZ")], [], some 7⟩))) =
        .panicked ⟨0, false, ["AA"], false⟩ ∧
      (["AA"] : Registry) ≠ unregister_all ["AA"] := by
  decide

end StateStore
